import Mathlib

/-!
Verification development for the BioSimSpace SOMD engine adapter
(`python/BioSimSpace/Process/_somd.py`).

The embedding models the `Somd` process class: configuration generation
(`_generate_config`), working-directory setup (`_setup`), command-line
argument generation (`_generate_args`), the process lifecycle (`start`,
`_clear_output`) and the output accessors (`getGradient`, `getTime`,
`getSystem`, `getCurrent*`).

Quantities are exact rationals: times are stored in femtoseconds (the
unit the source converts to before emitting config lines), temperatures
in kelvin.  Config lines are modelled as a structured inductive type,
one constructor per `addToConfig` call site in the source, carrying the
computed payload of that line; the engine-facing string rendering of a
line is not needed by any claim.
-/

/-- Thermodynamic ensemble of a Production/FreeEnergy protocol.  The
source compares `self._protocol.getEnsemble() == "NVT"`; the protocol
classes only admit "NVT" and "NPT". -/
inductive Ensemble
  | NVT
  | NPT
deriving DecidableEq, Repr, Inhabited

/-- Parameters of a `BioSimSpace.Protocol.Equilibration`.  Times are in
femtoseconds (`getRunTime()`, `getTimeStep()`), the start temperature in
kelvin (`getStartTemperature().kelvin().magnitude()`). -/
structure EquilibrationParams where
  runTime : ℚ
  timeStep : ℚ
  startTemperature : ℚ
  isConstantTemp : Bool
  isRestrained : Bool
deriving DecidableEq, Repr, Inhabited

/-- Parameters of a `BioSimSpace.Protocol.Production`. -/
structure ProductionParams where
  runTime : ℚ
  timeStep : ℚ
  temperature : ℚ
  ensemble : Ensemble
deriving DecidableEq, Repr, Inhabited

/-- Parameters of a `BioSimSpace.Protocol.FreeEnergy`: `getLambdaValues()`
is the configured lambda schedule in its original order, `getLambda()` the
active lambda value. -/
structure FreeEnergyParams where
  runTime : ℚ
  timeStep : ℚ
  temperature : ℚ
  ensemble : Ensemble
  lambdaValues : List ℚ
  lambdaVal : ℚ
deriving DecidableEq, Repr, Inhabited

/-- The protocol tagged union dispatched on by `type(self._protocol)`
checks in the source. -/
inductive Protocol
  | Minimisation (steps : ℕ)
  | Equilibration (p : EquilibrationParams)
  | Production (p : ProductionParams)
  | FreeEnergy (p : FreeEnergyParams)
  | Custom (config : List String)
deriving DecidableEq, Repr, Inhabited

/-- A molecule of the system, restricted to the attributes the adapter
inspects: the Sire molecule number (its identity for remove/add), the
perturbable flag, the water flag, the name of residue 0, and whether the
molecule has been replaced by its lambda = 0 end state. -/
structure Molecule where
  number : ℕ
  isPerturbable : Bool
  isWater : Bool
  residueName : String
  atLambda0 : Bool
deriving DecidableEq, Repr, Inhabited

/-- The molecular system, restricted to what the adapter inspects: its
molecules and whether the "space" property (periodic box) is present in
`propertyKeys()`. -/
structure System where
  molecules : List Molecule
  hasSpaceProperty : Bool
deriving DecidableEq, Repr, Inhabited

/-- `system.getPerturbableMolecules()`. -/
def System.getPerturbableMolecules (s : System) : List Molecule :=
  s.molecules.filter (·.isPerturbable)

/-- `system.nPerturbableMolecules()`. -/
def System.nPerturbableMolecules (s : System) : ℕ :=
  s.getPerturbableMolecules.length

/-- `system.getWaterMolecules()`. -/
def System.getWaterMolecules (s : System) : List Molecule :=
  s.molecules.filter (·.isWater)

/-- Modelled from the spec: the base `Process` class (not under src/)
computes `self._has_water`, the water-presence flag of the caller's
system, used by `_generate_config`. -/
def System.hasWater (s : System) : Bool :=
  s.molecules.any (·.isWater)

/-- `system._sire_system.remove(n)`: removes the molecule with Sire
number `n`. -/
def System.removeMolecule (s : System) (n : ℕ) : System :=
  { s with molecules := s.molecules.filter (fun m => m.number != n) }

/-- `system._sire_system.add(mol, MGName("all"))`: adds a molecule to the
system. -/
def System.addMolecule (s : System) (m : Molecule) : System :=
  { s with molecules := s.molecules ++ [m] }

/-- `system._sire_system.molecule(n)`: looks up the molecule with Sire
number `n`. -/
def System.molecule? (s : System) (n : ℕ) : Option Molecule :=
  s.molecules.find? (fun m => m.number == n)

/-- Errors raised by `_setup` / `_generate_config`: `ValueError` for the
wrong perturbable-molecule count, `IncompatibleError` for unsupported
equilibration modes and protocols. -/
inductive SomdError
  | wrongPerturbableCount (n : ℕ)
  | constantTempRequired
  | restraintsUnsupported
  | unsupportedProtocol
  | noPerturbableMolecule
deriving DecidableEq, Repr

/-- One SOMD config line, one constructor per `addToConfig` call site in
`_generate_config`, carrying the computed payload of the line. -/
inductive ConfigLine
  | minimise
  | minimiseMaxIter (n : ℕ)
  | minimiseTolerance
  | ncycles (n : ℤ)
  | nmoves (n : ℕ)
  | energyFrequency (n : ℕ)
  | saveCoordinates
  | bufferedCoordFreq (n : ℕ)
  | timestep (t : ℚ)
  | thermostat
  | temperature (t : ℚ)
  | barostat (enabled : Bool)
  | pressure
  | reactionFieldDielectric (d : ℚ)
  | cutoffType (periodic : Bool)
  | cutoffDistance
  | randomSeed (s : ℤ)
  | lambdaArray (vals : List ℚ)
  | lambdaVal (v : ℚ)
  | raw (s : String)
deriving DecidableEq, Repr, Inhabited

/-- The reaction-field dielectric line: 78.3 when solvated, 82.0 in
vacuum. -/
def dielectricLine (hasWater : Bool) : ConfigLine :=
  if hasWater then ConfigLine.reactionFieldDielectric (783/10)
  else ConfigLine.reactionFieldDielectric 82

/-- The cutoff-type and cutoff-distance lines: non-periodic when there is
no box or no water, else periodic; fixed 10 angstrom radius. -/
def cutoffLines (hasBox hasWater : Bool) : List ConfigLine :=
  (if !hasBox || !hasWater then [ConfigLine.cutoffType false]
   else [ConfigLine.cutoffType true])
  ++ [ConfigLine.cutoffDistance]

/-- The random-seed line, emitted only when a seed was supplied. -/
def seedLines (isSeeded : Bool) (seed : ℤ) : List ConfigLine :=
  if isSeeded then [ConfigLine.randomSeed seed] else []

/-- The barostat block of Production/FreeEnergy configs: disabled under
NVT; under any other ensemble enabled (with a pressure line) only when
water and a box are present, else disabled. -/
def barostatLines (ensemble : Ensemble) (hasWater hasBox : Bool) : List ConfigLine :=
  if ensemble = Ensemble.NVT then [ConfigLine.barostat false]
  else if hasWater && hasBox then [ConfigLine.barostat true, ConfigLine.pressure]
  else [ConfigLine.barostat false]

/-- `Somd._generate_config`.  `hasBox` is the presence of the "space"
property in the caller system, `hasWater` the `self._has_water` flag,
`isSeeded`/`seed` the optional random seed.  The cycle count of the
time-based protocols is `math.ceil((run_time / time_step) / 100)`. -/
def generate_config (prot : Protocol) (hasBox hasWater isSeeded : Bool)
    (seed : ℤ) : Except SomdError (List ConfigLine) :=
  match prot with
  | Protocol.Minimisation steps =>
      Except.ok ([ConfigLine.minimise, ConfigLine.minimiseMaxIter steps,
                  ConfigLine.minimiseTolerance, ConfigLine.ncycles 1,
                  ConfigLine.nmoves 1, ConfigLine.saveCoordinates]
                 ++ cutoffLines hasBox hasWater)
  | Protocol.Equilibration p =>
      if p.isConstantTemp = false then Except.error SomdError.constantTempRequired
      else if p.isRestrained = true then Except.error SomdError.restraintsUnsupported
      else
        Except.ok ([ConfigLine.ncycles ⌈p.runTime / p.timeStep / 100⌉,
                    ConfigLine.nmoves 100, ConfigLine.saveCoordinates,
                    ConfigLine.bufferedCoordFreq 100,
                    ConfigLine.timestep p.timeStep, ConfigLine.thermostat,
                    ConfigLine.temperature p.startTemperature,
                    ConfigLine.barostat false, dielectricLine hasWater]
                   ++ cutoffLines hasBox hasWater ++ seedLines isSeeded seed)
  | Protocol.Production p =>
      Except.ok ([ConfigLine.ncycles ⌈p.runTime / p.timeStep / 100⌉,
                  ConfigLine.nmoves 100, ConfigLine.saveCoordinates,
                  ConfigLine.bufferedCoordFreq 100,
                  ConfigLine.timestep p.timeStep, ConfigLine.thermostat,
                  ConfigLine.temperature p.temperature]
                 ++ barostatLines p.ensemble hasWater hasBox
                 ++ [dielectricLine hasWater]
                 ++ cutoffLines hasBox hasWater ++ seedLines isSeeded seed)
  | Protocol.FreeEnergy p =>
      Except.ok ([ConfigLine.ncycles ⌈p.runTime / p.timeStep / 100⌉,
                  ConfigLine.nmoves 100, ConfigLine.energyFrequency 100,
                  ConfigLine.saveCoordinates, ConfigLine.bufferedCoordFreq 100,
                  ConfigLine.timestep p.timeStep, ConfigLine.thermostat,
                  ConfigLine.temperature p.temperature]
                 ++ barostatLines p.ensemble hasWater hasBox
                 ++ [dielectricLine hasWater]
                 ++ cutoffLines hasBox hasWater ++ seedLines isSeeded seed
                 ++ [ConfigLine.lambdaArray p.lambdaValues,
                     ConfigLine.lambdaVal p.lambdaVal])
  | Protocol.Custom _ => Except.error SomdError.unsupportedProtocol

/-- A free-energy protocol used as a concrete evaluation point:
run time 10 picoseconds = 10000 femtoseconds, time step 2 femtoseconds. -/
def feParams0 : FreeEnergyParams :=
  { runTime := 10000, timeStep := 2, temperature := 300,
    ensemble := Ensemble.NVT,
    lambdaValues := [0, 1/4, 1/2, 3/4, 1], lambdaVal := 1/2 }

/-- C2: for every Equilibration, Production, or FreeEnergy protocol, the
generated config starts with an ncycles line whose value is exactly
ceil(run_time / (time_step * 100)). -/
theorem C2_ncycles_formula (hasBox hasWater isSeeded : Bool) (seed : ℤ) :
    (∀ p : EquilibrationParams, p.isConstantTemp = true → p.isRestrained = false →
        (generate_config (Protocol.Equilibration p) hasBox hasWater isSeeded seed).map List.head? =
          Except.ok (some (ConfigLine.ncycles ⌈p.runTime / (p.timeStep * 100)⌉))) ∧
    (∀ p : ProductionParams,
        (generate_config (Protocol.Production p) hasBox hasWater isSeeded seed).map List.head? =
          Except.ok (some (ConfigLine.ncycles ⌈p.runTime / (p.timeStep * 100)⌉))) ∧
    (∀ p : FreeEnergyParams,
        (generate_config (Protocol.FreeEnergy p) hasBox hasWater isSeeded seed).map List.head? =
          Except.ok (some (ConfigLine.ncycles ⌈p.runTime / (p.timeStep * 100)⌉))) := by
  refine ⟨?_, ?_, ?_⟩
  · intro p h1 h2
    simp [generate_config, h1, h2, Except.map, div_div]
  · intro p
    simp [generate_config, Except.map, div_div]
  · intro p
    simp [generate_config, Except.map, div_div]

/-- C2 witness: run_time = 10 picoseconds with time_step = 2 femtoseconds
yields ncycles = 50. -/
theorem C2_ncycles_formula_witness :
    (generate_config (Protocol.FreeEnergy feParams0) true true false 0).map List.head? =
      Except.ok (some (ConfigLine.ncycles 50)) := by
  have h := (C2_ncycles_formula true true false 0).2.2 feParams0
  rw [show (⌈feParams0.runTime / (feParams0.timeStep * 100)⌉ : ℤ) = 50 from by
    norm_num [feParams0]] at h
  exact h

/-- A production protocol at the NPT ensemble, used as a concrete
evaluation point. -/
def prodNPT : ProductionParams :=
  { runTime := 10000, timeStep := 2, temperature := 300, ensemble := Ensemble.NPT }

/-- The config generated for `prodNPT` in a solvated, periodic system. -/
def cfgProdNPT : List ConfigLine :=
  (generate_config (Protocol.Production prodNPT) true true false 0).toOption.getD []

/-- C7: for every Production or FreeEnergy protocol, the generated config
enables the barostat (with a pressure line) iff the ensemble is
constant-pressure (not NVT) and the system has water and a periodic box;
in every other case the config contains a disabled-barostat line. -/
theorem C7_barostat_policy (hasBox hasWater isSeeded : Bool) (seed : ℤ) :
    (∀ (p : ProductionParams) (cfg : List ConfigLine),
        generate_config (Protocol.Production p) hasBox hasWater isSeeded seed = Except.ok cfg →
        ((ConfigLine.barostat true ∈ cfg ∧ ConfigLine.pressure ∈ cfg) ↔
            (p.ensemble = Ensemble.NPT ∧ hasWater = true ∧ hasBox = true)) ∧
        (¬(p.ensemble = Ensemble.NPT ∧ hasWater = true ∧ hasBox = true) →
            ConfigLine.barostat false ∈ cfg)) ∧
    (∀ (p : FreeEnergyParams) (cfg : List ConfigLine),
        generate_config (Protocol.FreeEnergy p) hasBox hasWater isSeeded seed = Except.ok cfg →
        ((ConfigLine.barostat true ∈ cfg ∧ ConfigLine.pressure ∈ cfg) ↔
            (p.ensemble = Ensemble.NPT ∧ hasWater = true ∧ hasBox = true)) ∧
        (¬(p.ensemble = Ensemble.NPT ∧ hasWater = true ∧ hasBox = true) →
            ConfigLine.barostat false ∈ cfg)) := by
  constructor
  · intro p cfg h
    simp only [generate_config, Except.ok.injEq] at h
    subst h
    cases hp : p.ensemble <;> cases hasBox <;> cases hasWater <;> cases isSeeded <;>
      simp [barostatLines, dielectricLine, cutoffLines, seedLines, hp]
  · intro p cfg h
    simp only [generate_config, Except.ok.injEq] at h
    subst h
    cases hp : p.ensemble <;> cases hasBox <;> cases hasWater <;> cases isSeeded <;>
      simp [barostatLines, dielectricLine, cutoffLines, seedLines, hp]

/-- C7 witness: a Production NPT protocol in a solvated periodic system
gets an enabled barostat and a pressure line. -/
theorem C7_barostat_policy_witness :
    ConfigLine.barostat true ∈ cfgProdNPT ∧ ConfigLine.pressure ∈ cfgProdNPT := by
  have h := ((C7_barostat_policy true true false 0).1 prodNPT cfgProdNPT (by rfl)).1
  exact h.mpr ⟨rfl, rfl, rfl⟩

/-- Input files written to the working directory by `_setup`. -/
inductive SomdFile
  | pert
  | rst
  | top
  | cfg
deriving DecidableEq, Repr

/-- Modelled from the spec: `Molecule._toPertFile` (the `_SireWrappers`
molecule class is not under src/) writes the perturbation file and
returns the molecule corresponding to the lambda = 0 end state. -/
def Molecule.toPertFileLambda0 (m : Molecule) : Molecule :=
  { m with atLambda0 := true }

/-- One pass of the water-relabel loop body in `_setup`: fetch the
molecule with the water's number from the (working) Sire system, rename
its residue 0 to "WAT", remove the old molecule and add the renamed one
back in. -/
def relabelStep (sys : System) (w : Molecule) : System :=
  match sys.molecule? w.number with
  | none => sys
  | some m =>
      (sys.removeMolecule w.number).addMolecule { m with residueName := "WAT" }

/-- The water-relabel loop of `_setup`: iterate the loop body over the
water molecules of the working system. -/
def relabelWaters (s : System) : System :=
  s.getWaterMolecules.foldl relabelStep s

/-- The result of a successful `_setup`: the serialized working system,
the input files written (in write order), the generated config and args. -/
structure SetupResult where
  system : System
  writtenFiles : List SomdFile
  config : List ConfigLine
  args : List (String × String)
deriving DecidableEq, Repr, Inhabited

/-- Outcome of `_setup`: a result, or an error raised after the listed
files had already been written. -/
inductive SetupOutcome
  | ok (r : SetupResult)
  | err (e : SomdError) (filesWrittenBeforeError : List SomdFile)
deriving DecidableEq, Repr, Inhabited

/-- The config of a setup outcome (empty on error). -/
def SetupOutcome.configOf : SetupOutcome → List ConfigLine
  | SetupOutcome.ok r => r.config
  | SetupOutcome.err _ _ => []

/-- The successful result of a setup outcome, when there is one. -/
def SetupOutcome.okResult : SetupOutcome → Option SetupResult
  | SetupOutcome.ok r => some r
  | SetupOutcome.err _ _ => none

/-- `Somd._generate_args`: ordered flag/value pairs; the perturbation
file flag `-m` is present only for FreeEnergy. -/
def generate_args (prot : Protocol) (name platform : String) : List (String × String) :=
  [("-c", name ++ ".rst7"), ("-t", name ++ ".prm7")]
  ++ (match prot with
      | Protocol.FreeEnergy _ => [("-m", name ++ ".pert")]
      | _ => [])
  ++ [("-C", name ++ ".cfg"), ("-p", platform)]

/-- The config chosen in `_setup`: the caller-supplied raw lines verbatim
for a Custom protocol, else `_generate_config`. -/
def setupConfig (prot : Protocol) (hasBox hasWater isSeeded : Bool) (seed : ℤ) :
    Except SomdError (List ConfigLine) :=
  match prot with
  | Protocol.Custom lines => Except.ok (lines.map ConfigLine.raw)
  | _ => generate_config prot hasBox hasWater isSeeded seed

/-- The tail of `_setup` shared by all protocols: relabel the waters of
the working system, write the RST7 and PRM7 files, generate and write the
config, and generate the args.  `orig` is `self._system` (the caller
system), which `_generate_config` consults for the "space" property and
water presence. -/
def finishSetup (orig system : System) (prot : Protocol) (written : List SomdFile)
    (name platform : String) (isSeeded : Bool) (seed : ℤ) : SetupOutcome :=
  let system := relabelWaters system
  let written := written ++ [SomdFile.rst, SomdFile.top]
  match setupConfig prot orig.hasSpaceProperty orig.hasWater isSeeded seed with
  | Except.error e => SetupOutcome.err e written
  | Except.ok config =>
      SetupOutcome.ok { system := system, writtenFiles := written ++ [SomdFile.cfg],
                        config := config, args := generate_args prot name platform }

/-- `Somd._setup`.  A working copy of the caller system is taken first
(`system = _System(self._system)`, a value copy per the spec and the
source comment); all mutations below apply to the copy.  For FreeEnergy,
the system must contain exactly one perturbable molecule — any other
count raises a `ValueError` before any input file is written; with
exactly one, the perturbation file is written and the molecule is
replaced by its lambda = 0 end state. -/
def somdSetup (sys : System) (prot : Protocol) (name platform : String)
    (isSeeded : Bool) (seed : ℤ) : SetupOutcome :=
  let system := sys
  match prot with
  | Protocol.FreeEnergy _ =>
      if system.nPerturbableMolecules = 1 then
        match system.getPerturbableMolecules.head? with
        | some pm =>
            let pm := pm.toPertFileLambda0
            let system := (System.removeMolecule system pm.number).addMolecule pm
            finishSetup sys system prot [SomdFile.pert] name platform isSeeded seed
        | none =>
            -- unreachable: guarded by the count check above
            SetupOutcome.err SomdError.noPerturbableMolecule []
      else SetupOutcome.err (SomdError.wrongPerturbableCount system.nPerturbableMolecules) []
  | _ => finishSetup sys system prot [] name platform isSeeded seed

/-- `Somd._setup` together with the caller system it leaves behind: the
first component is `self._system` after setup.  The source takes a copy
at the top of `_setup` and applies every mutation (perturbable-molecule
substitution, water relabeling) to the copy, so the caller system is
returned as it came in. -/
def somdSetupCaller (sys : System) (prot : Protocol) (name platform : String)
    (isSeeded : Bool) (seed : ℤ) : System × SetupOutcome :=
  (sys, somdSetup sys prot name platform isSeeded seed)

/-- Invariant of the water-relabel loop: if every water of the current
system is already labelled "WAT" or its number is still in the remaining
worklist, then after the loop every water is labelled "WAT". -/
theorem relabel_fold_wat (ws : List Molecule) :
    ∀ sys : System,
    (∀ m ∈ sys.molecules, m.isWater = true →
        m.residueName = "WAT" ∨ m.number ∈ ws.map Molecule.number) →
    ∀ m ∈ (ws.foldl relabelStep sys).molecules, m.isWater = true →
      m.residueName = "WAT" := by
  induction ws with
  | nil =>
      intro sys hinv m hm hw
      have h := hinv m hm hw
      simpa using h
  | cons w rest ih =>
      intro sys hinv m hm hw
      refine ih (relabelStep sys w) ?_ m hm hw
      intro x hx hxw
      rcases hfind : sys.molecule? w.number with _ | m0
      · rw [relabelStep, hfind] at hx
        rcases hinv x hx hxw with h | h
        · exact Or.inl h
        · simp only [List.map_cons, List.mem_cons] at h
          rcases h with h | h
        
          · exfalso
            have hnone := List.find?_eq_none.mp hfind x hx
            exact hnone (by simpa using h)
          · exact Or.inr h
      · rw [relabelStep, hfind] at hx
        simp only [System.addMolecule, System.removeMolecule, List.mem_append,
          List.mem_filter, List.mem_singleton] at hx
        rcases hx with ⟨hmem, hne⟩ | hxeq
        · rcases hinv x hmem hxw with h | h
          · exact Or.inl h
          · simp only [List.map_cons, List.mem_cons] at h
            rcases h with h | h
            · exact absurd (by simpa using h) (by simpa using hne)
            · exact Or.inr h
        · subst hxeq
          exact Or.inl rfl

/-- Every water molecule of the relabelled system is labelled "WAT". -/
theorem relabelWaters_wat (s : System) :
    ∀ m ∈ (relabelWaters s).molecules, m.isWater = true → m.residueName = "WAT" := by
  refine relabel_fold_wat s.getWaterMolecules s ?_
  intro m hm hw
  right
  exact List.mem_map_of_mem _ (List.mem_filter.mpr ⟨hm, hw⟩)

/-- A successful `finishSetup` serializes exactly the relabelled working
system. -/
theorem finishSetup_ok_system (orig system : System) (prot : Protocol)
    (written : List SomdFile) (name platform : String) (isSeeded : Bool)
    (seed : ℤ) (r : SetupResult)
    (h : finishSetup orig system prot written name platform isSeeded seed =
      SetupOutcome.ok r) :
    r.system = relabelWaters system := by
  rw [finishSetup] at h
  rcases hc : setupConfig prot orig.hasSpaceProperty orig.hasWater isSeeded seed with e | config
  · rw [hc] at h
    exact absurd h (by simp)
  · rw [hc] at h
    simp only [SetupOutcome.ok.injEq] at h
    rw [← h]

/-- C1: for a FreeEnergy protocol, setup with a perturbable-molecule
count other than 1 raises the configuration `ValueError` with no input
file written; with exactly 1, setup succeeds and the config contains the
lambda-array line carrying the configured lambda values in their
original order. -/
theorem C1_freeEnergy_setup (sys : System) (fp : FreeEnergyParams)
    (name platform : String) (isSeeded : Bool) (seed : ℤ) :
    (sys.nPerturbableMolecules ≠ 1 →
        somdSetup sys (Protocol.FreeEnergy fp) name platform isSeeded seed =
          SetupOutcome.err (SomdError.wrongPerturbableCount sys.nPerturbableMolecules) []) ∧
    (sys.nPerturbableMolecules = 1 →
        ∃ r, somdSetup sys (Protocol.FreeEnergy fp) name platform isSeeded seed =
            SetupOutcome.ok r ∧
          ConfigLine.lambdaArray fp.lambdaValues ∈ r.config) := by
  constructor
  · intro hne
    rw [somdSetup, if_neg hne]
  · intro h1
    obtain ⟨pm, hpm⟩ := List.length_eq_one.mp h1
    rw [somdSetup, if_pos h1, hpm]
    simp only [List.head?_cons]
    rw [finishSetup]
    simp only [setupConfig, generate_config]
    refine ⟨_, rfl, ?_⟩
    simp

/-- A system with two perturbable molecules. -/
def sysTwoPert : System :=
  { molecules :=
      [{ number := 1, isPerturbable := true, isWater := false,
         residueName := "LIG", atLambda0 := false },
       { number := 2, isPerturbable := true, isWater := false,
         residueName := "LIH", atLambda0 := false }],
    hasSpaceProperty := true }

/-- A solvated system with exactly one perturbable molecule. -/
def sysOnePert : System :=
  { molecules :=
      [{ number := 1, isPerturbable := true, isWater := false,
         residueName := "LIG", atLambda0 := false },
       { number := 2, isPerturbable := false, isWater := true,
         residueName := "HOH", atLambda0 := false }],
    hasSpaceProperty := true }

/-- C1 witness: the two-perturbable-molecule system fails with the
configuration error and no file written; the one-perturbable-molecule
system sets up with the lambda-array line present. -/
theorem C1_freeEnergy_setup_witness :
    somdSetup sysTwoPert (Protocol.FreeEnergy feParams0) "somd" "CPU" false 0 =
      SetupOutcome.err (SomdError.wrongPerturbableCount 2) [] ∧
    ConfigLine.lambdaArray feParams0.lambdaValues ∈
      (somdSetup sysOnePert (Protocol.FreeEnergy feParams0) "somd" "CPU" false 0).configOf := by
  constructor
  · have h := (C1_freeEnergy_setup sysTwoPert feParams0 "somd" "CPU" false 0).1 (by decide)
    simpa using h
  · obtain ⟨r, hr, hmem⟩ :=
      (C1_freeEnergy_setup sysOnePert feParams0 "somd" "CPU" false 0).2 (by decide)
    rw [hr]
    exact hmem

/-- C9: construction/setup leaves the caller system untouched (the first
component of `somdSetupCaller` is the caller system as it came in), and
the mutations land in the working copy: in a successful setup result
every water molecule of the serialized system carries the residue label
"WAT". -/
theorem C9_setup_frame (sys : System) (prot : Protocol) (name platform : String)
    (isSeeded : Bool) (seed : ℤ) :
    (somdSetupCaller sys prot name platform isSeeded seed).1 = sys ∧
    (∀ r, (somdSetupCaller sys prot name platform isSeeded seed).2 = SetupOutcome.ok r →
        ∀ m ∈ r.system.molecules, m.isWater = true → m.residueName = "WAT") := by
  refine ⟨rfl, ?_⟩
  intro r hr m hm hw
  have hsys : ∃ s0, r.system = relabelWaters s0 := by
    simp only [somdSetupCaller] at hr
    cases prot with
    | Minimisation steps =>
        simp only [somdSetup] at hr
        exact ⟨sys, finishSetup_ok_system _ _ _ _ _ _ _ _ _ hr⟩
    | Equilibration p =>
        simp only [somdSetup] at hr
        exact ⟨sys, finishSetup_ok_system _ _ _ _ _ _ _ _ _ hr⟩
    | Production p =>
        simp only [somdSetup] at hr
        exact ⟨sys, finishSetup_ok_system _ _ _ _ _ _ _ _ _ hr⟩
    | Custom lines =>
        simp only [somdSetup] at hr
        exact ⟨sys, finishSetup_ok_system _ _ _ _ _ _ _ _ _ hr⟩
    | FreeEnergy fp =>
        rw [somdSetup] at hr
        by_cases h1 : sys.nPerturbableMolecules = 1
        · rw [if_pos h1] at hr
          rcases hh : sys.getPerturbableMolecules.head? with _ | pm
          · rw [hh] at hr
            exact absurd hr (by simp)
          · rw [hh] at hr
            exact ⟨_, finishSetup_ok_system _ _ _ _ _ _ _ _ _ hr⟩
        · rw [if_neg h1] at hr
          exact absurd hr (by simp)
  obtain ⟨s0, hs0⟩ := hsys
  rw [hs0] at hm
  exact relabelWaters_wat s0 m hm hw

/-- Presence of the known previous-run artifacts in the working
directory, by their fixed filenames. -/
structure ProcFiles where
  simRestart : Bool
  systemS3 : Bool
  traj : Bool
  gradientsDat : Bool
  simfileDat : Bool
deriving DecidableEq, Repr, Inhabited

/-- The lifecycle state of a `Somd` process: the queued flag
(`isQueued()`, modelled from the spec since the base class is not under
src/), the child-process handle (`self._process`: `none` when never
spawned, `some b` for a handle with `isRunning() = b`), the working
directory contents, the stdout/stderr stream files, the recorded command
line (README.txt, `self._command`), the timer, the calling process
current directory and the fixed paths/identity. -/
structure SomdProcess where
  queued : Bool
  running : Option Bool
  files : ProcFiles
  stdout : List String
  stderr : List String
  command : Option String
  timerStarted : Bool
  cwd : String
  workDirPath : String
  exe : String
  argString : String
  protocol : Protocol
deriving DecidableEq, Repr, Inhabited

/-- Failure injection for the steps of `start()` that call into the OS
after the working-directory change: the README write and the engine
spawn (`Sire.Base.Process.run`) may raise. -/
structure StartEnv where
  readmeFails : Bool
  spawnFails : Bool
deriving DecidableEq, Repr, Inhabited

/-- The step of `start()` at which an exception was raised. -/
inductive RaiseStep
  | readme
  | spawn
deriving DecidableEq, Repr, Inhabited

/-- Result of `start()`: a normal return, or an exception propagating out
of the named step with the process state as it stood at the raise. -/
inductive StartResult
  | ok (p : SomdProcess)
  | raised (step : RaiseStep) (p : SomdProcess)
deriving DecidableEq, Repr, Inhabited

/-- The process state carried by a start result. -/
def StartResult.state : StartResult → SomdProcess
  | StartResult.ok p => p
  | StartResult.raised _ p => p

/-- Whether `start()` returned normally. -/
def StartResult.isOk : StartResult → Bool
  | StartResult.ok _ => true
  | StartResult.raised _ _ => false

/-- `Somd._clear_output`: the base-class part (modelled from the spec:
reset the stdout/stderr stream files) followed by deletion of the restart
and trajectory files, and — only for FreeEnergy protocols — of the
gradient and simfile logs.  Each source deletion is `if isfile: remove`,
whose net effect is absence of the file. -/
def clear_output (p : SomdProcess) : SomdProcess :=
  let p := { p with stdout := [], stderr := [] }
  let f := p.files
  let f := { f with simRestart := false, systemS3 := false, traj := false }
  let f := match p.protocol with
    | Protocol.FreeEnergy _ => { f with gradientsDat := false, simfileDat := false }
    | _ => f
  { p with files := f }

/-- `Somd.start`: no-op when queued, no-op when a running process handle
exists; otherwise clear existing output, remember the current directory,
change into the working directory, write the command line to README.txt,
start the timer, spawn the engine, write the stderr redirection notice,
and change back to the remembered directory.  The source has no
try/finally: an exception from the README write or the spawn propagates
with the current directory still changed. -/
def start (env : StartEnv) (p : SomdProcess) : StartResult :=
  if p.queued then StartResult.ok p
  else if p.running = some true then StartResult.ok p
  else
    let p := clear_output p
    let savedDir := p.cwd
    let p := { p with cwd := p.workDirPath }
    if env.readmeFails then StartResult.raised RaiseStep.readme p
    else
      let p := { p with command := some (p.exe ++ " " ++ p.argString) }
      let p := { p with timerStarted := true }
      if env.spawnFails then StartResult.raised RaiseStep.spawn p
      else
        let p := { p with running := some true }
        let p := { p with
          stderr := ["All output has been redirected to the stdout stream!"] }
        StartResult.ok { p with cwd := savedDir }

/-- C5: start() on an already-queued or already-running process returns
immediately with the whole process state — artifacts, spawn status and
command log included — unchanged. -/
theorem C5_start_idempotent (env : StartEnv) (p : SomdProcess)
    (h : p.queued = true ∨ p.running = some true) :
    start env p = StartResult.ok p := by
  rcases h with h | h
  · rw [start, if_pos h]
  · by_cases hq : p.queued
    · rw [start, if_pos hq]
    · rw [start, if_neg hq, if_pos h]

/-- An environment in which no OS step fails. -/
def envOk : StartEnv := { readmeFails := false, spawnFails := false }

/-- An environment in which the engine spawn raises. -/
def envSpawnFail : StartEnv := { readmeFails := false, spawnFails := true }

/-- A queued process with stale artifacts present. -/
def procQueued : SomdProcess :=
  { queued := true, running := none,
    files := { simRestart := true, systemS3 := true, traj := true,
               gradientsDat := true, simfileDat := true },
    stdout := ["old"], stderr := ["old"], command := some "old command",
    timerStarted := false, cwd := "/home/user", workDirPath := "/tmp/somd",
    exe := "somd", argString := "-c somd.rst7", protocol := Protocol.Minimisation 100 }

/-- C5 witness: starting the queued process changes nothing. -/
theorem C5_start_idempotent_witness :
    start envOk procQueued = StartResult.ok procQueued :=
  C5_start_idempotent envOk procQueued (Or.inl (by decide))

/-- A never-started Minimisation process whose working directory holds a
stale gradient log from an earlier free-energy run. -/
def procMinStale : SomdProcess :=
  { queued := false, running := none,
    files := { simRestart := true, systemS3 := true, traj := true,
               gradientsDat := true, simfileDat := true },
    stdout := [], stderr := [], command := none,
    timerStarted := false, cwd := "/home/user", workDirPath := "/tmp/somd",
    exe := "somd", argString := "-c somd.rst7", protocol := Protocol.Minimisation 100 }

/-- C6 counterexample: under a Minimisation protocol, start() proceeds to
spawn (it returns normally with a running handle) yet the stale gradient
log gradients.dat is never deleted — the gradient/energy logs are only
cleared for FreeEnergy protocols. -/
theorem C6_counterexample :
    (start envOk procMinStale).isOk = true ∧
    (start envOk procMinStale).state.running = some true ∧
    (start envOk procMinStale).state.files.gradientsDat = true ∧
    (start envOk procMinStale).state.files.simfileDat = true := by
  refine ⟨?_, ?_, ?_, ?_⟩ <;> rfl

/-- C6 (amended): start() on a non-queued, non-running process deletes
the restart checkpoint (sim_restart.s3), the SYSTEM.s3 checkpoint and the
trajectory file for every protocol, and deletes the gradient/energy log
files (gradients.dat, simfile.dat) only when the protocol is FreeEnergy;
the deletions happen before the spawn, so they are visible in the
resulting state whether the spawn succeeds or raises. -/
theorem C6_clear_output (env : StartEnv) (p : SomdProcess)
    (hq : p.queued = false) (hr : p.running ≠ some true) :
    (start env p).state.files.simRestart = false ∧
    (start env p).state.files.systemS3 = false ∧
    (start env p).state.files.traj = false ∧
    (∀ fp, p.protocol = Protocol.FreeEnergy fp →
        (start env p).state.files.gradientsDat = false ∧
        (start env p).state.files.simfileDat = false) := by
  rw [start, if_neg (by simp [hq]), if_neg hr]
  rcases env with ⟨rf, sf⟩
  cases rf <;> cases sf <;>
    refine ⟨?_, ?_, ?_, ?_⟩ <;>
    · simp only [clear_output, StartResult.state]
      rcases hp : p.protocol <;> simp

/-- A never-started FreeEnergy process with all stale artifacts present. -/
def procFEStale : SomdProcess :=
  { queued := false, running := none,
    files := { simRestart := true, systemS3 := true, traj := true,
               gradientsDat := true, simfileDat := true },
    stdout := [], stderr := [], command := none,
    timerStarted := false, cwd := "/home/user", workDirPath := "/tmp/somd",
    exe := "somd-freenrg", argString := "-c somd.rst7",
    protocol := Protocol.FreeEnergy feParams0 }

/-- C6 witness: for the FreeEnergy process all five artifacts are gone
after start(), even when the spawn step raises. -/
theorem C6_clear_output_witness :
    (start envSpawnFail procFEStale).state.files.simRestart = false ∧
    (start envSpawnFail procFEStale).state.files.traj = false ∧
    (start envSpawnFail procFEStale).state.files.gradientsDat = false ∧
    (start envSpawnFail procFEStale).state.files.simfileDat = false := by
  have h := C6_clear_output envSpawnFail procFEStale (by decide) (by decide)
  exact ⟨h.1, h.2.2.1, (h.2.2.2 feParams0 rfl).1, (h.2.2.2 feParams0 rfl).2⟩

/-- A never-started process whose caller sits in /home/user while the
process working directory is /tmp/somd. -/
def procCwd : SomdProcess :=
  { queued := false, running := none,
    files := { simRestart := false, systemS3 := false, traj := false,
               gradientsDat := false, simfileDat := false },
    stdout := [], stderr := [], command := none,
    timerStarted := false, cwd := "/home/user", workDirPath := "/tmp/somd",
    exe := "somd", argString := "-c somd.rst7", protocol := Protocol.Minimisation 100 }

/-- C8 counterexample: when the spawn raises, start() propagates the
exception with the calling process still inside the process working
directory — the pre-call directory is not restored. -/
theorem C8_counterexample :
    (start envSpawnFail procCwd).isOk = false ∧
    (start envSpawnFail procCwd).state.cwd ≠ procCwd.cwd := by
  refine ⟨rfl, ?_⟩
  decide

/-- C8 (amended): whenever start() returns normally the calling process
working directory equals its pre-call value; but when a step after the
directory change (the README write or the spawn) raises, the exception
propagates with the working directory left at the process work_dir. -/
theorem C8_cwd_restore (env : StartEnv) (p : SomdProcess) :
    (∀ q, start env p = StartResult.ok q → q.cwd = p.cwd) ∧
    (∀ s q, start env p = StartResult.raised s q → q.cwd = p.workDirPath) := by
  rcases env with ⟨rf, sf⟩
  by_cases hq : p.queued
  · rw [start, if_pos hq]
    exact ⟨fun q h => by cases h; rfl, fun s q h => by cases h⟩
  · by_cases hr : p.running = some true
    · rw [start, if_neg hq, if_pos hr]
      exact ⟨fun q h => by cases h; rfl, fun s q h => by cases h⟩
    · rw [start, if_neg hq, if_neg hr]
      cases rf <;> cases sf <;>
        exact ⟨fun q h => by cases h <;> rfl, fun s q h => by cases h <;> rfl⟩

/-- C8 witness: with no failure the directory is restored; with a failing
spawn the directory is left at the process work_dir. -/
theorem C8_cwd_restore_witness :
    (start envOk procCwd).state.cwd = procCwd.cwd ∧
    (start envSpawnFail procCwd).state.cwd = procCwd.workDirPath := by
  constructor
  · exact (C8_cwd_restore envOk procCwd).1 ((start envOk procCwd).state) rfl
  · exact (C8_cwd_restore envSpawnFail procCwd).2 RaiseStep.spawn
      ((start envSpawnFail procCwd).state) rfl

/-- One line of the gradients.dat file: a `#`-prefixed comment, or a data
line whose last whitespace-delimited token parses as `value`
(`float(line.rstrip().split()[-1])`). -/
inductive FileLine
  | comment
  | record (value : ℚ)
deriving DecidableEq, Repr, Inhabited

/-- The numeric sample of a line, if it is not a comment. -/
def FileLine.value? : FileLine → Option ℚ
  | FileLine.comment => none
  | FileLine.record v => some v

/-- The gradient-extraction state: the accumulated `self._gradients`
list, the gradient file contents (`none` when the file does not exist),
and the persistent pygtail read cursor.  The cursor is modelled from the
spec: pygtail re-opens the file and yields only the lines after the
offset consumed by earlier reads. -/
structure GradientState where
  gradients : List ℚ
  fileLines : Option (List FileLine)
  offset : ℕ
deriving DecidableEq, Repr, Inhabited

/-- The runtime state an accessor sees: the protocol, the sticky blocking
intent (`self._is_blocked`), the trajectory frames on disk and the
gradient state. -/
structure RunState where
  protocol : Protocol
  isBlocked : Bool
  traj : List System
  grad : GradientState
deriving DecidableEq, Repr, Inhabited

/-- The tri-state `block` keyword: `True`, `False`, or `"AUTO"`. -/
inductive BlockMode
  | yes
  | no
  | auto
deriving DecidableEq, Repr, Inhabited

/-- The blocking policy at the top of `getTrajectory`: wait when `block`
is `True`, wait when it is `"AUTO"` and the process was constructed to
block, else do not wait.  `w` abstracts `self.wait()` (a base-class
method): however the wait transforms the state, the accessors below are
parametric in it. -/
def applyBlock (w : RunState → RunState) (block : BlockMode) (st : RunState) : RunState :=
  match block with
  | BlockMode.yes => w st
  | BlockMode.auto => if st.isBlocked then w st else st
  | BlockMode.no => st

/-- A value returned by a time-series accessor: the full accumulated
series, or the most recent sample. -/
inductive SeriesResult (α : Type)
  | series (xs : List α)
  | scalar (x : α)
deriving DecidableEq, Repr

/-- `Somd.getTrajectory`: optionally wait, then build a trajectory object
over the frames. -/
def getTrajectory (w : RunState → RunState) (block : BlockMode) (st : RunState) :
    Option (List System) × RunState :=
  let st := applyBlock w block st
  (some st.traj, st)

/-- `Somd.getSystem`: the last frame of the trajectory, or `None` when
there is none. -/
def getSystem (w : RunState → RunState) (block : BlockMode) (st : RunState) :
    Option System × RunState :=
  match getTrajectory w block st with
  | (some frames, st) => (frames.getLast?, st)
  | (none, st) => (none, st)

/-- `Somd.getCurrentSystem`: `self.getSystem(block=False)`. -/
def getCurrentSystem (w : RunState → RunState) (st : RunState) :
    Option System × RunState :=
  getSystem w BlockMode.no st

/-- `getTimeStep()` of a protocol, in femtoseconds; `none` for the
protocol classes that have no time step (the source reaches them only
under a `try` whose handler returns `None`). -/
def Protocol.getTimeStep : Protocol → Option ℚ
  | Protocol.Minimisation _ => none
  | Protocol.Equilibration p => some p.timeStep
  | Protocol.Production p => some p.timeStep
  | Protocol.FreeEnergy p => some p.timeStep
  | Protocol.Custom _ => none

/-- `Somd.getTime`: `None` for Minimisation; else read the frame count
from the trajectory and derive the time records (in nanoseconds, frames
saved every 100 MD steps): `100 * timestep * x` for `x` in
`1..num_frames`. -/
def getTime (w : RunState → RunState) (timeSeries : Bool) (block : BlockMode)
    (st : RunState) : Option (SeriesResult ℚ) × RunState :=
  match st.protocol with
  | Protocol.Minimisation _ => (none, st)
  | _ =>
    let st := applyBlock w block st
    let numFrames := st.traj.length
    if numFrames = 0 then (none, st)
    else
      match st.protocol.getTimeStep with
      | none => (none, st)
      | some ts =>
          let times := (List.range numFrames).map
            (fun x => (100 * (ts / 1000000)) * (x + 1 : ℕ))
          if timeSeries then (some (SeriesResult.series times), st)
          else (times.getLast?.map SeriesResult.scalar, st)

/-- `Somd.getCurrentTime`: `self.getTime(time_series, block=False)`. -/
def getCurrentTime (w : RunState → RunState) (timeSeries : Bool) (st : RunState) :
    Option (SeriesResult ℚ) × RunState :=
  getTime w timeSeries BlockMode.no st

/-- `Somd.getGradient`: `None` when the gradient file does not exist;
else append the samples of the unread non-comment lines to
`self._gradients` (advancing the pygtail cursor), then return `None` if
the list is empty, the whole list for `time_series=True`, else the last
sample.  The source accepts a `block` keyword but never consults it. -/
def getGradient (timeSeries : Bool) (block : BlockMode) (st : RunState) :
    Option (SeriesResult ℚ) × RunState :=
  match st.grad.fileLines with
  | none => (none, st)
  | some lines =>
      let g := st.grad.gradients ++
        ((lines.drop st.grad.offset).filterMap FileLine.value?)
      let st := { st with
        grad := { gradients := g, fileLines := some lines, offset := lines.length } }
      if g.isEmpty then (none, st)
      else if timeSeries then (some (SeriesResult.series g), st)
      else (g.getLast?.map SeriesResult.scalar, st)

/-- `Somd.getCurrentGradient`: `self.getGradient(time_series, block=False)`. -/
def getCurrentGradient (timeSeries : Bool) (st : RunState) :
    Option (SeriesResult ℚ) × RunState :=
  getGradient timeSeries BlockMode.no st

/-- C3: a second `getGradient(time_series=True)` call on the state left
by a first call, with the underlying file unchanged in between, returns
the identical ordered sequence and leaves the state fixed, and the first
call only ever extends the accumulated series (it never shrinks and never
re-consumes entries). -/
theorem C3_gradient_idempotent (st : RunState) (b b' : BlockMode) :
    (getGradient true b' (getGradient true b st).2).1 = (getGradient true b st).1 ∧
    (getGradient true b' (getGradient true b st).2).2 = (getGradient true b st).2 ∧
    ∃ t, ((getGradient true b st).2).grad.gradients = st.grad.gradients ++ t := by
  rcases hf : st.grad.fileLines with _ | lines
  · refine ⟨?_, ?_, ⟨[], by simp [getGradient, hf]⟩⟩ <;> simp [getGradient, hf]
  · simp only [getGradient, hf, List.drop_length, List.filterMap_nil, List.append_nil]
    refine ⟨?_, ?_, ⟨(lines.drop st.grad.offset).filterMap FileLine.value?,
        by split <;> rfl⟩⟩ <;>
      by_cases hg : (st.grad.gradients ++
          ((lines.drop st.grad.offset).filterMap FileLine.value?)).isEmpty <;>
        simp [hg]

/-- C4: when the gradient file does not exist yet, `getGradient` returns
an absent value, for any `time_series` flag and blocking mode, raising no
error and leaving the state untouched. -/
theorem C4_missing_gradient_file (timeSeries : Bool) (b : BlockMode) (st : RunState)
    (h : st.grad.fileLines = none) :
    getGradient timeSeries b st = (none, st) := by
  rw [getGradient, h]

/-- A run state of a free-energy process whose gradient file has not been
created yet. -/
def stNoGradFile : RunState :=
  { protocol := Protocol.FreeEnergy feParams0, isBlocked := false, traj := [],
    grad := { gradients := [], fileLines := none, offset := 0 } }

/-- C4 witness: the accessor on the file-less state returns `None` and
the untouched state. -/
theorem C4_missing_gradient_file_witness :
    getGradient true BlockMode.auto stNoGradFile = (none, stNoGradFile) :=
  C4_missing_gradient_file true BlockMode.auto stNoGradFile (by decide)

/-- C10: the non-blocking accessors equal their blocking counterparts
specialised to `block=False`, for every wait behavior, flag and state. -/
theorem C10_current_accessors (w : RunState → RunState) (timeSeries : Bool)
    (st : RunState) :
    getCurrentSystem w st = getSystem w BlockMode.no st ∧
    getCurrentTime w timeSeries st = getTime w timeSeries BlockMode.no st ∧
    getCurrentGradient timeSeries st = getGradient timeSeries BlockMode.no st :=
  ⟨rfl, rfl, rfl⟩

/-- The setup result of a Production setup over the solvated
one-perturbable-molecule system. -/
def setupRes9 : SetupResult :=
  ((somdSetupCaller sysOnePert (Protocol.Production prodNPT) "somd" "CPU"
      false 0).2.okResult).getD default

/-- The first water of the serialized working system of that setup. -/
def water9 : Molecule := (setupRes9.system.getWaterMolecules).getD 0 default

/-- C9 witness: setting up the concrete system leaves the caller system
as it came in, while the water in the serialized working copy (labelled
"HOH" in the caller system) carries the label "WAT". -/
theorem C9_setup_frame_witness :
    (somdSetupCaller sysOnePert (Protocol.Production prodNPT) "somd" "CPU" false 0).1 =
      sysOnePert ∧
    water9.residueName = "WAT" := by
  refine ⟨(C9_setup_frame sysOnePert (Protocol.Production prodNPT) "somd" "CPU" false 0).1, ?_⟩
  exact (C9_setup_frame sysOnePert (Protocol.Production prodNPT) "somd" "CPU" false 0).2
    setupRes9 rfl water9 (by decide) (by decide)
